import Mathlib

/-!
Verification of the Pet REST CRUD service (`server.py`).

The service exposes list/get/create/update/delete operations over a single
`Pet` resource persisted in a relational store.  We embed the JSON data
model, the `Pet` entity with its `serialize`/`deserialize` methods, and the
five route handlers as pure Lean functions over an explicit store state
(a list of persisted pets).  Database commits are the only operations that
change the store; a request that raises before its commit leaves the store
unchanged (the per-request session is rolled back at teardown).
-/

set_option autoImplicit false

namespace PetService

/-- JSON values as delivered by `request.get_json()`.  Objects are modelled
as association lists of key/value pairs; a Python dict has unique keys, and
`jlookup` returns the value of the first (hence only) matching key. -/
inductive Json where
  | null : Json
  | bool : Bool → Json
  | num : Int → Json
  | str : String → Json
  | arr : List Json → Json
  | obj : List (String × Json) → Json

/-- Key lookup in a JSON object's field list: `data['k']` for a dict. -/
def jlookup : List (String × Json) → String → Option Json
  | [], _ => none
  | (k, v) :: rest, key => if k = key then some v else jlookup rest key

instance (o : Option Json) : Decidable (o = none) :=
  match o with
  | none => isTrue rfl
  | some _ => isFalse (fun h => Option.noConfusion h)

instance (v : Json) (s : String) : Decidable (v = Json.str s) :=
  match v with
  | Json.str t =>
    if h : t = s then isTrue (by rw [h]) else isFalse (fun hh => h (Json.str.inj hh))
  | Json.null => isFalse (fun h => Json.noConfusion h)
  | Json.bool _ => isFalse (fun h => Json.noConfusion h)
  | Json.num _ => isFalse (fun h => Json.noConfusion h)
  | Json.arr _ => isFalse (fun h => Json.noConfusion h)
  | Json.obj _ => isFalse (fun h => Json.noConfusion h)

/-- The in-memory `Pet` entity (class `Pet(db.Model)`): integer primary key
`id` (None until the store assigns one on commit) and the two data columns.
The columns hold whatever JSON value was assigned by `deserialize`
(`self.name = data['name']` performs no type coercion), so they are `Json`;
an unset Python attribute is `None`, i.e. `Json.null`. -/
structure Pet where
  id : Option Nat
  name : Json
  category : Json

/-- `Pet()`: a freshly constructed entity with nothing set. -/
def Pet.empty : Pet := ⟨none, Json.null, Json.null⟩

/-- `Pet.serialize`: `{ "id": self.id, "name": self.name, "category": self.category }`. -/
def Pet.serialize (p : Pet) : Json :=
  Json.obj [("id", match p.id with
                   | none => Json.null
                   | some i => Json.num (Int.ofNat i)),
            ("name", p.name), ("category", p.category)]

/-- `Pet.deserialize`: assigns `self.name = data['name']` then
`self.category = data['category']`; a `KeyError` raises
`DataValidationError('Invalid pet: missing ' + key)`, and indexing a
non-dict (`None`, a string, a number, an array) raises a `TypeError`
mapped to the generic message.  The result is the (possibly partially
mutated) entity together with the raised error, if any — the in-place
assignment of `name` happens before the `category` lookup can fail. -/
def Pet.deserialize (p : Pet) (data : Json) : Pet × Option String :=
  match data with
  | Json.obj fields =>
    match jlookup fields "name" with
    | none => (p, some "Invalid pet: missing name")
    | some n =>
      match jlookup fields "category" with
      | none => ({ p with name := n }, some "Invalid pet: missing category")
      | some c => ({ p with name := n, category := c }, none)
  | _ => (p, some "Invalid pet: body of request contained bad or no data")

/-- The persistent store: the `pets` table.  Every committed row has a
concrete assigned `id`. -/
abbrev Store := List Pet

/-- HTTP response: status code and JSON body.  (The `Location` header added
by `create_pets` is not modelled; no claim concerns it.) -/
structure Response where
  status : Nat
  body : Json

/-- `@app.errorhandler(DataValidationError)`: 400 with the standard error
envelope carrying the exception's message. -/
def request_validation_error (msg : String) : Response :=
  ⟨400, Json.obj [("status", Json.num 400), ("error", Json.str "Bad Request"),
                  ("message", Json.str msg)]⟩

/-- `@app.errorhandler(404)`: 404 with the standard error envelope. -/
def not_found (msg : String) : Response :=
  ⟨404, Json.obj [("status", Json.num 404), ("error", Json.str "Not Found"),
                  ("message", Json.str msg)]⟩

/-- SQLite assigns a new row the largest existing rowid plus one; an empty
table starts at 1. -/
def maxId (store : Store) : Nat :=
  store.foldr (fun p m => max (p.id.getD 0) m) 0

def nextId (store : Store) : Nat := maxId store + 1

/-- `GET /pets` (`list_pets`): `request.args.get('category')` is `None`
when the query parameter is absent and the raw string otherwise;
`if category:` is Python truthiness, so the filter branch runs only for a
present, non-empty value.  The filter is `Pet.category == category`, an
exact equality comparison against the string. -/
def list_pets (store : Store) (category : Option String) : Response :=
  let pets : List Pet :=
    match category with
    | some c =>
      if c ≠ "" then store.filter (fun p => decide (p.category = Json.str c))
      else store
    | none => store
  ⟨200, Json.arr (pets.map Pet.serialize)⟩

/-- `GET /pets/<id>` (`get_pets`): `Pet.query.get(id)` fetches by primary
key; absent raises `NotFound` with the formatted message. -/
def get_pets (store : Store) (i : Nat) : Response :=
  match store.find? (fun p => p.id == some i) with
  | none => not_found ("Pet with id '" ++ toString i ++ "' was not found.")
  | some pet => ⟨200, pet.serialize⟩

/-- `POST /pets` (`create_pets`): deserialize into a fresh `Pet`; a
validation error propagates to the error handler before `db.session.add`,
so the store is untouched; otherwise the commit assigns the next id and
inserts the row. -/
def create_pets (store : Store) (body : Json) : Store × Response :=
  match Pet.empty.deserialize body with
  | (_, some e) => (store, request_validation_error e)
  | (pet, none) =>
    let assigned : Pet := { pet with id := some (nextId store) }
    (store ++ [assigned], ⟨201, assigned.serialize⟩)

/-- `PUT /pets/<id>` (`update_pets`): `Pet.query.get_or_404(id)` aborts
with 404 when the id is absent; otherwise the body is deserialized into the
fetched row and committed.  When deserialization raises, the error handler
answers 400 and the uncommitted session is rolled back at request teardown,
so the store keeps its previous contents. -/
def update_pets (store : Store) (i : Nat) (body : Json) : Store × Response :=
  match store.find? (fun p => p.id == some i) with
  | none =>
    (store, not_found "The requested URL was not found on the server.")
  | some pet =>
    match pet.deserialize body with
    | (_, some e) => (store, request_validation_error e)
    | (updated, none) =>
      (store.map (fun p => if p.id == some i then updated else p),
       ⟨200, updated.serialize⟩)

/-- `DELETE /pets/<id>` (`delete_pets`): fetch; if present, delete and
commit; either way answer 204 with an empty body. -/
def delete_pets (store : Store) (i : Nat) : Store × Response :=
  let store' :=
    match store.find? (fun p => p.id == some i) with
    | none => store
    | some _ => store.filter (fun p => !(p.id == some i))
  (store', ⟨204, Json.str ""⟩)

/-- A request body the `Create`/`Update` validation rejects: not a JSON
object, or an object missing the `name` key or the `category` key. -/
def invalidBody (body : Json) : Prop :=
  match body with
  | Json.obj fields => jlookup fields "name" = none ∨ jlookup fields "category" = none
  | _ => True

instance (body : Json) : Decidable (invalidBody body) := by
  unfold invalidBody
  match body with
  | Json.obj fields => exact inferInstance
  | Json.null | Json.bool _ | Json.num _ | Json.str _ | Json.arr _ => exact inferInstance

end PetService

namespace PetService

/-! ## Helper lemmas -/

lemma maxId_cons (q : Pet) (rest : Store) :
    maxId (q :: rest) = max (q.id.getD 0) (maxId rest) := rfl

lemma id_le_maxId (store : Store) (p : Pet) (hp : p ∈ store) :
    p.id.getD 0 ≤ maxId store := by
  induction store with
  | nil => cases hp
  | cons q rest ih =>
    rcases List.mem_cons.mp hp with rfl | hp
    · rw [maxId_cons]; exact le_max_left _ _
    · rw [maxId_cons]; exact le_trans (ih hp) (le_max_right _ _)

/-- Rows already committed never carry the id the next insert will get. -/
lemma find?_nextId_none (store : Store) :
    store.find? (fun p => p.id == some (nextId store)) = none := by
  rw [List.find?_eq_none]
  intro p hp
  cases hid : p.id with
  | none => simp
  | some k =>
    have hk := id_le_maxId store p hp
    rw [hid] at hk
    simp only [Option.getD_some] at hk
    simp only [hid, beq_iff_eq, Option.some.injEq, nextId]
    omega

/-- On a body the validation rule rejects, `deserialize` raises. -/
lemma deserialize_snd_of_invalidBody (p : Pet) (body : Json) (h : invalidBody body) :
    ∃ q e, p.deserialize body = (q, some e) := by
  cases body with
  | obj fields =>
    unfold invalidBody at h
    cases hn : jlookup fields "name" with
    | none => exact ⟨p, "Invalid pet: missing name", by simp [Pet.deserialize, hn]⟩
    | some v =>
      cases hc : jlookup fields "category" with
      | none =>
        exact ⟨{ p with name := v }, "Invalid pet: missing category",
               by simp [Pet.deserialize, hn, hc]⟩
      | some c =>
        rcases h with h | h
        · rw [hn] at h; exact absurd h (by simp)
        · rw [hc] at h; exact absurd h (by simp)
  | null => exact ⟨p, _, rfl⟩
  | bool b => exact ⟨p, _, rfl⟩
  | num n => exact ⟨p, _, rfl⟩
  | str s => exact ⟨p, _, rfl⟩
  | arr l => exact ⟨p, _, rfl⟩

/-! ## Claim theorems -/

/-- C2: for every id and store state, `DELETE /pets/{id}` answers 204 with
an empty body, whether or not a row with that id exists; deleting the same
id twice answers 204 both times; and deleting an id with no row is a no-op
on the store. -/
theorem delete_pets_idempotent_204 (store : Store) (i : Nat) :
    (delete_pets store i).2.status = 204 ∧
    (delete_pets store i).2.body = Json.str "" ∧
    (delete_pets (delete_pets store i).1 i).2.status = 204 ∧
    (store.find? (fun p => p.id == some i) = none → (delete_pets store i).1 = store) := by
  refine ⟨rfl, rfl, rfl, fun h => ?_⟩
  simp [delete_pets, h]

theorem delete_pets_idempotent_204_witness :
    (delete_pets [⟨some 1, Json.str "fido", Json.str "dog"⟩] 2).2.status = 204 ∧
    (delete_pets [⟨some 1, Json.str "fido", Json.str "dog"⟩] 2).1
      = [⟨some 1, Json.str "fido", Json.str "dog"⟩] :=
  ⟨(delete_pets_idempotent_204 [⟨some 1, Json.str "fido", Json.str "dog"⟩] 2).1,
   (delete_pets_idempotent_204 [⟨some 1, Json.str "fido", Json.str "dog"⟩] 2).2.2.2 rfl⟩

/-- C4: `PUT /pets/{id}` on an id with no row answers 404 and leaves the
store unchanged — in particular no row with that id is created. -/
theorem update_pets_missing_id_404 (store : Store) (i : Nat) (body : Json)
    (h : store.find? (fun p => p.id == some i) = none) :
    (update_pets store i body).2.status = 404 ∧ (update_pets store i body).1 = store := by
  simp [update_pets, h, not_found]

theorem update_pets_missing_id_404_witness :
    (update_pets [⟨some 1, Json.str "fido", Json.str "dog"⟩] 2 Json.null).2.status = 404 ∧
    (update_pets [⟨some 1, Json.str "fido", Json.str "dog"⟩] 2 Json.null).1
      = [⟨some 1, Json.str "fido", Json.str "dog"⟩] :=
  update_pets_missing_id_404 [⟨some 1, Json.str "fido", Json.str "dog"⟩] 2 Json.null rfl

/-- C10: a present but empty `category` query parameter behaves exactly
like an absent one — `GET /pets?category=` returns every row, because the
truthiness test takes the filter branch only for a non-empty value. -/
theorem list_pets_empty_param_returns_all (store : Store) :
    list_pets store (some "") = list_pets store none ∧
    (list_pets store (some "")).body = Json.arr (store.map Pet.serialize) := by
  constructor <;> simp [list_pets]

end PetService

namespace PetService

/-- C1: `POST /pets` with a body that is not a JSON object, or is an object
missing the `name` or `category` key, answers 400 and adds no row: the
store is exactly what it was. -/
theorem create_pets_invalid_body_rejected (store : Store) (body : Json)
    (h : invalidBody body) :
    (create_pets store body).2.status = 400 ∧ (create_pets store body).1 = store := by
  obtain ⟨q, e, he⟩ := deserialize_snd_of_invalidBody Pet.empty body h
  simp [create_pets, he, request_validation_error]

theorem create_pets_invalid_body_rejected_witness :
    (create_pets [] (Json.obj [("category", Json.str "dog")])).2.status = 400 ∧
    (create_pets [] (Json.obj [("category", Json.str "dog")])).1 = [] :=
  create_pets_invalid_body_rejected [] (Json.obj [("category", Json.str "dog")]) (by decide)

/-- C9: `PUT /pets/{id}` on an existing row with an invalid body (not an
object, or missing `name`/`category`) answers 400 and commits nothing: the
store — in particular the row with that id, its `name` and `category` —
is exactly what it was before the request. -/
theorem update_pets_invalid_body_atomic (store : Store) (i : Nat) (body : Json)
    (hex : (store.find? (fun p => p.id == some i)).isSome = true)
    (h : invalidBody body) :
    (update_pets store i body).2.status = 400 ∧ (update_pets store i body).1 = store := by
  obtain ⟨pet, hpet⟩ := Option.isSome_iff_exists.mp hex
  obtain ⟨q, e, he⟩ := deserialize_snd_of_invalidBody pet body h
  simp [update_pets, hpet, he, request_validation_error]

theorem update_pets_invalid_body_atomic_witness :
    (update_pets [⟨some 1, Json.str "fido", Json.str "dog"⟩] 1
        (Json.obj [("name", Json.str "rex")])).2.status = 400 ∧
    (update_pets [⟨some 1, Json.str "fido", Json.str "dog"⟩] 1
        (Json.obj [("name", Json.str "rex")])).1
      = [⟨some 1, Json.str "fido", Json.str "dog"⟩] :=
  update_pets_invalid_body_atomic [⟨some 1, Json.str "fido", Json.str "dog"⟩] 1
    (Json.obj [("name", Json.str "rex")]) rfl (by decide)

/-- C5: deserializing a JSON object that has `name` and `category` keys
succeeds, serializing the result reproduces exactly those two values, and
the entity's `id` stays unset even when the input carries an `id` key
(`deserialize` never reads it). -/
theorem deserialize_serialize_roundtrip (fields : List (String × Json)) (n c : Json)
    (hn : jlookup fields "name" = some n) (hc : jlookup fields "category" = some c) :
    (Pet.empty.deserialize (Json.obj fields)).2 = none ∧
    (Pet.empty.deserialize (Json.obj fields)).1.serialize
      = Json.obj [("id", Json.null), ("name", n), ("category", c)] ∧
    (Pet.empty.deserialize (Json.obj fields)).1.id = none := by
  simp [Pet.deserialize, hn, hc, Pet.serialize, Pet.empty]

theorem deserialize_serialize_roundtrip_witness :
    (Pet.empty.deserialize (Json.obj [("id", Json.num 7), ("name", Json.str "kitty"),
        ("category", Json.str "cat")])).1.serialize
      = Json.obj [("id", Json.null), ("name", Json.str "kitty"),
        ("category", Json.str "cat")] ∧
    (Pet.empty.deserialize (Json.obj [("id", Json.num 7), ("name", Json.str "kitty"),
        ("category", Json.str "cat")])).1.id = none :=
  ⟨(deserialize_serialize_roundtrip
      [("id", Json.num 7), ("name", Json.str "kitty"), ("category", Json.str "cat")]
      (Json.str "kitty") (Json.str "cat") rfl rfl).2.1,
   (deserialize_serialize_roundtrip
      [("id", Json.num 7), ("name", Json.str "kitty"), ("category", Json.str "cat")]
      (Json.str "kitty") (Json.str "cat") rfl rfl).2.2⟩

/-- C6 (failing input): `serialize` on the pet the tests build produces the
three keys `id`, `name`, `category` only — there is no `available` key,
although the claim (and `test_serialize_a_pet`) requires one; the `Pet`
model in `server.py` has no `available` column at all. -/
theorem serialize_omits_available :
    Pet.serialize ⟨some 1, Json.str "fido", Json.str "dog"⟩
      = Json.obj [("id", Json.num 1), ("name", Json.str "fido"),
                  ("category", Json.str "dog")] ∧
    jlookup [("id", Json.num 1), ("name", Json.str "fido"),
             ("category", Json.str "dog")] "available" = none :=
  ⟨rfl, rfl⟩

/-- C7: `deserialize` on an object missing `name` raises
`Invalid pet: missing name`; on an object with `name` but no `category`,
`Invalid pet: missing category`; on a non-object,
`Invalid pet: body of request contained bad or no data`; and every such
`DataValidationError` is answered by the 400 handler. -/
theorem deserialize_validation_errors (p : Pet) (data : Json) :
    (∀ fields, data = Json.obj fields → jlookup fields "name" = none →
        (p.deserialize data).2 = some "Invalid pet: missing name") ∧
    (∀ fields v, data = Json.obj fields → jlookup fields "name" = some v →
        jlookup fields "category" = none →
        (p.deserialize data).2 = some "Invalid pet: missing category") ∧
    ((∀ fields, data ≠ Json.obj fields) →
        (p.deserialize data).2
          = some "Invalid pet: body of request contained bad or no data") ∧
    (∀ e, (p.deserialize data).2 = some e →
        (request_validation_error e).status = 400) := by
  refine ⟨?_, ?_, ?_, fun e _ => rfl⟩
  · rintro fields rfl h
    simp [Pet.deserialize, h]
  · rintro fields v rfl hv h
    simp [Pet.deserialize, hv, h]
  · intro h
    cases data with
    | obj fields => exact absurd rfl (h fields)
    | null => rfl
    | bool b => rfl
    | num n => rfl
    | str s => rfl
    | arr l => rfl

theorem deserialize_validation_errors_witness :
    (Pet.empty.deserialize (Json.str "data")).2
      = some "Invalid pet: body of request contained bad or no data" :=
  (deserialize_validation_errors Pet.empty (Json.str "data")).2.2.1
    (fun _ hh => Json.noConfusion hh)

end PetService

namespace PetService

/-- C3 (counterexample): with one row of category `"dog"` in the store,
`GET /pets?category=` (the empty string) returns that row, not the empty
set of rows whose `category` equals `""` — so the exact-filter property
fails for the string `X = ""`. -/
theorem list_pets_exact_filter_cex :
    ¬ ((list_pets [⟨some 1, Json.str "fido", Json.str "dog"⟩] (some "")).body
        = Json.arr ((([⟨some 1, Json.str "fido", Json.str "dog"⟩] : Store).filter
            (fun p => decide (p.category = Json.str ""))).map Pet.serialize)) := by
  intro h
  simp [list_pets, Pet.serialize] at h

/-- C3 (amended): for every NON-EMPTY string `X`, `GET /pets?category=X`
answers 200 with exactly the rows whose `category` equals `X` under exact
equality — a serialized row list that is the store filtered by
`category = X`, membership in which is equivalent to being a stored row
with that exact category — and with no `category` parameter every row is
returned. -/
theorem list_pets_exact_filter (store : Store) (X : String) (h : X ≠ "") :
    (list_pets store (some X)).status = 200 ∧
    (list_pets store (some X)).body
      = Json.arr ((store.filter (fun p => decide (p.category = Json.str X))).map
          Pet.serialize) ∧
    (∀ p : Pet, p ∈ store.filter (fun p => decide (p.category = Json.str X)) ↔
        p ∈ store ∧ p.category = Json.str X) ∧
    (list_pets store none).body = Json.arr (store.map Pet.serialize) := by
  refine ⟨rfl, ?_, ?_, rfl⟩
  · simp [list_pets, h]
  · intro p
    simp [List.mem_filter]

theorem list_pets_exact_filter_witness :
    (list_pets [⟨some 1, Json.str "fido", Json.str "dog"⟩,
                ⟨some 2, Json.str "kitty", Json.str "cat"⟩] (some "cat")).body
      = Json.arr (((([⟨some 1, Json.str "fido", Json.str "dog"⟩,
                      ⟨some 2, Json.str "kitty", Json.str "cat"⟩] : Store)).filter
          (fun p => decide (p.category = Json.str "cat"))).map Pet.serialize) :=
  (list_pets_exact_filter [⟨some 1, Json.str "fido", Json.str "dog"⟩,
      ⟨some 2, Json.str "kitty", Json.str "cat"⟩] "cat" (by decide)).2.1

/-- C8: creating a pet with body `{name, category}` answers 201 whose body
carries the assigned id and the supplied fields; `GET /pets/{id}` at the
assigned id then answers 200 with exactly the supplied `name` and
`category` plus the assigned `id`; and `GET /pets/{id}` for an id with no
row answers 404. -/
theorem create_then_get_pets (store : Store) (n c : Json) (j : Nat)
    (habsent : store.find? (fun p => p.id == some j) = none) :
    (create_pets store (Json.obj [("name", n), ("category", c)])).2.status = 201 ∧
    (create_pets store (Json.obj [("name", n), ("category", c)])).2.body
      = Json.obj [("id", Json.num (Int.ofNat (nextId store))), ("name", n),
                  ("category", c)] ∧
    (get_pets (create_pets store (Json.obj [("name", n), ("category", c)])).1
        (nextId store)).status = 200 ∧
    (get_pets (create_pets store (Json.obj [("name", n), ("category", c)])).1
        (nextId store)).body
      = Json.obj [("id", Json.num (Int.ofNat (nextId store))), ("name", n),
                  ("category", c)] ∧
    (get_pets store j).status = 404 := by
  have hins : (create_pets store (Json.obj [("name", n), ("category", c)])).1
      = store ++ [⟨some (nextId store), n, c⟩] := rfl
  have hfind : (store ++ [(⟨some (nextId store), n, c⟩ : Pet)]).find?
      (fun p => p.id == some (nextId store)) = some ⟨some (nextId store), n, c⟩ := by
    rw [List.find?_append, find?_nextId_none]
    simp [List.find?]
  refine ⟨rfl, rfl, ?_, ?_, ?_⟩
  · rw [hins]
    simp [get_pets, hfind]
  · rw [hins]
    simp [get_pets, hfind, Pet.serialize]
  · simp [get_pets, habsent, not_found]

theorem create_then_get_pets_witness :
    (create_pets [] (Json.obj [("name", Json.str "fido"),
        ("category", Json.str "dog")])).2.status = 201 ∧
    (get_pets (create_pets [] (Json.obj [("name", Json.str "fido"),
        ("category", Json.str "dog")])).1 1).body
      = Json.obj [("id", Json.num 1), ("name", Json.str "fido"),
                  ("category", Json.str "dog")] ∧
    (get_pets [] 5).status = 404 := by
  have h := create_then_get_pets [] (Json.str "fido") (Json.str "dog") 5 rfl
  exact ⟨h.1, h.2.2.2.1, h.2.2.2.2⟩

end PetService
